import Mathlib

/-!
Shallow embedding of the detection/decision engine of
`debian_gaming_setup.py` (class `GamingSetup`), together with proofs of the
behavioural properties stated in the repository's specification.

Strings are modelled as lists of characters (`Str`); each Python string
primitive used by the source (`in`, `.lower()`, `.strip()`, `.split(sep)`,
`' '.join`) gets an executable Lean counterpart with Python semantics.
External commands (`subprocess.run`) are modelled by a `SpawnOutcome` value
passed in at the call boundary: `completed rc out err` for a process that ran
to completion, `timedOut` for `subprocess.TimeoutExpired`, and
`launchError msg` for any other exception raised while starting or running
the process.
-/

/-- Python strings, modelled as lists of characters. -/
abbrev Str := List Char

/-- Coerce a Lean string literal to the character-list model. -/
def str (s : String) : Str := s.data

/-- Python `needle in hay` (contiguous-substring membership). -/
def pyIn (needle hay : Str) : Bool := decide (needle <:+: hay)

/-- Python `s.lower()` (ASCII case folding, as used by the source). -/
def lowerStr (s : Str) : Str := s.map Char.toLower

/-- Python's default whitespace set for `str.strip()`. -/
def pyWS (c : Char) : Bool :=
  c == ' ' || c == '\t' || c == '\n' || c == '\r' || c == '\x0b' || c == '\x0c'

/-- Python `s.strip()`: drop whitespace from both ends. -/
def stripStr (s : Str) : Str :=
  ((s.dropWhile pyWS).reverse.dropWhile pyWS).reverse

/-- Python `s.split(sep)` for a one-character separator: `"".split(sep) = [""]`,
and every occurrence of `sep` opens a new (possibly empty) field. -/
def splitOnChar (sep : Char) : Str → List Str
  | [] => [[]]
  | c :: cs =>
    if c = sep then [] :: splitOnChar sep cs
    else
      match splitOnChar sep cs with
      | [] => [[c]]
      | f :: rest => (c :: f) :: rest

/-- Python `s.split('\n')`. -/
def splitLines (s : Str) : List Str := splitOnChar '\n' s

/-- Python `sep.join(lines)`. -/
def joinWith (sep : Str) : List Str → Str
  | [] => []
  | [l] => l
  | l :: ls => l ++ sep ++ joinWith sep ls

/-- Python `' '.join(lines)`. -/
def joinSpace (ls : List Str) : Str := joinWith (str " ") ls

/-- Python truthiness of an `Optional[str]` value: `None` and `""` are falsy. -/
def pyTruthy : Option Str → Bool
  | none => false
  | some s => s ≠ []

/-- Outcome of one `subprocess.run` call, as seen by the caller. -/
inductive SpawnOutcome where
  | completed (returncode : Int) (stdout stderr : Str)
  | timedOut
  | launchError (msg : Str)
deriving DecidableEq

/-- The `(success, stdout, stderr)` triple returned by `run_command`. -/
structure ExecResult where
  success : Bool
  stdout : Str
  stderr : Str
deriving DecidableEq

/-- `GamingSetup.run_command`, embedded over an explicit spawn outcome and an
explicit failure ledger (`self.failed_operations`).  Returns the result
triple, the updated ledger, and whether a process spawn was attempted.
In dry-run mode the function returns `(True, "", "")` before reaching the
`subprocess` call.  With `check=True` a non-zero exit raises
`CalledProcessError`, whose handler appends `"FAILED: <description>"` to the
ledger; with `check=False` a non-zero exit takes the plain
`return False, stdout, stderr` path, which appends nothing.  Timeouts and
launch errors always append one entry. -/
def run_command (dry_run check : Bool) (description : Str) (timeout : Nat)
    (spawn : SpawnOutcome) (failed_operations : List Str) :
    ExecResult × List Str × Bool :=
  if dry_run then
    (⟨true, [], []⟩, failed_operations, false)
  else
    match spawn with
    | .completed rc out err =>
      if check && rc != 0 then
        -- subprocess.run(..., check=True) raised CalledProcessError
        (⟨false, out, err⟩,
         failed_operations ++ [str "FAILED: " ++ description], true)
      else if rc = 0 then
        (⟨true, out, err⟩, failed_operations, true)
      else
        (⟨false, out, err⟩, failed_operations, true)
    | .timedOut =>
      (⟨false, [],
        str "TIMEOUT: " ++ description ++ str " (exceeded " ++
          str (Nat.repr timeout) ++ str " seconds)"⟩,
       failed_operations ++
         [str "TIMEOUT: " ++ description ++ str " (exceeded " ++
           str (Nat.repr timeout) ++ str " seconds)"], true)
    | .launchError m =>
      (⟨false, [], m⟩,
       failed_operations ++ [str "EXCEPTION: " ++ description ++ str " - " ++ m],
       true)

/-- Whether a given spawn outcome makes `run_command` (outside dry-run, with
the given `check` flag) append a ledger entry. -/
def ledgerAppends (check : Bool) : SpawnOutcome → Bool
  | .completed rc _ _ => check && rc != 0
  | .timedOut => true
  | .launchError _ => true

/-- Whether a given spawn outcome is reported as success by `run_command`. -/
def spawnSuccess : SpawnOutcome → Bool
  | .completed rc _ _ => rc == 0
  | .timedOut => false
  | .launchError _ => false

/-- GPU vendor enumeration (`class GPUVendor(Enum)`). -/
inductive GPUVendor where
  | NVIDIA
  | AMD
  | INTEL
  | VIRTUAL
  | UNKNOWN
deriving DecidableEq

/-- Virtual machine type enumeration (`class VMType(Enum)`). -/
inductive VMType where
  | VMWARE
  | VIRTUALBOX
  | KVM
  | QEMU
  | HYPERV
  | XEN
  | PARALLELS
  | NONE
deriving DecidableEq

/-- The `virt_map` dictionary lookup inside `detect_virtualization`
(`virt_map.get(key)` on the lowercased token; `none` when the key is absent). -/
def virtMapLookup (k : Str) : Option Str :=
  if k = str "vmware" then some (str "VMware")
  else if k = str "kvm" then some (str "KVM")
  else if k = str "qemu" then some (str "QEMU")
  else if k = str "virtualbox" then some (str "VirtualBox")
  else if k = str "oracle" then some (str "VirtualBox")
  else if k = str "microsoft" then some (str "Hyper-V")
  else if k = str "xen" then some (str "Xen")
  else if k = str "bochs" then some (str "Bochs")
  else if k = str "parallels" then some (str "Parallels")
  else none

/-- Method 1 of `detect_virtualization`: `systemd-detect-virt`.  The exit code
is ignored; the stripped stdout is definitive iff non-empty and not `"none"`,
and is then mapped through `virt_map` with the raw token as the default. -/
def virtProbe1 : SpawnOutcome → Option Str
  | .completed _ out _ =>
    let virt_type := stripStr out
    if virt_type ≠ [] ∧ virt_type ≠ str "none" then
      some ((virtMapLookup (lowerStr virt_type)).getD virt_type)
    else none
  | _ => none

/-- Method 2 of `detect_virtualization`: scan lowercased `dmesg` output for
hypervisor markers. -/
def virtProbe2 : SpawnOutcome → Option Str
  | .completed _ out _ =>
    let dmesg := lowerStr out
    if pyIn (str "vmware") dmesg then some (str "VMware")
    else if pyIn (str "virtualbox") dmesg then some (str "VirtualBox")
    else if pyIn (str "hypervisor detected") dmesg then some (str "VM")
    else none
  | _ => none

/-- Method 3 of `detect_virtualization`: scan lowercased `lspci` output for
virtual graphics devices. -/
def virtProbe3 : SpawnOutcome → Option Str
  | .completed _ out _ =>
    let lspci := lowerStr out
    if pyIn (str "vmware") lspci then some (str "VMware")
    else if pyIn (str "virtualbox") lspci then some (str "VirtualBox")
    else if pyIn (str "qxl") lspci || pyIn (str "virtio") lspci then
      some (str "KVM/QEMU")
    else none
  | _ => none

/-- `GamingSetup.detect_virtualization`, instrumented with the number of probe
methods whose external command was attempted.  Each `try` block is entered only
when every earlier probe was inconclusive, so the count is 1, 2 or 3. -/
def detect_virtualizationT (r1 r2 r3 : SpawnOutcome) : Option Str × Nat :=
  match virtProbe1 r1 with
  | some v => (some v, 1)
  | none =>
    match virtProbe2 r2 with
    | some v => (some v, 2)
    | none =>
      match virtProbe3 r3 with
      | some v => (some v, 3)
      | none => (none, 3)

/-- `GamingSetup.detect_virtualization`: the returned value. -/
def detect_virtualization (r1 r2 r3 : SpawnOutcome) : Option Str :=
  (detect_virtualizationT r1 r2 r3).1

/-- `GamingSetup._vm_type_str_to_enum`: substring checks on the lowercased
string; an unrecognized string falls through to `VMType.NONE`. -/
def vm_type_str_to_enum (vm_str : Str) : VMType :=
  let vm_lower := lowerStr vm_str
  if pyIn (str "vmware") vm_lower then .VMWARE
  else if pyIn (str "virtualbox") vm_lower || pyIn (str "oracle") vm_lower then
    .VIRTUALBOX
  else if pyIn (str "kvm") vm_lower then .KVM
  else if pyIn (str "qemu") vm_lower then .QEMU
  else if pyIn (str "hyper-v") vm_lower || pyIn (str "microsoft") vm_lower then
    .HYPERV
  else if pyIn (str "xen") vm_lower then .XEN
  else if pyIn (str "parallels") vm_lower then .PARALLELS
  else .NONE

/-- The line filter inside `detect_gpu`: keep only the lines of the lowercased
`lspci` output that contain one of `vga`, `3d`, `display`. -/
def gpuFilterLines (lspci_output : Str) : List Str :=
  (splitLines lspci_output).filter fun line =>
    pyIn (str "vga") line || pyIn (str "3d") line || pyIn (str "display") line

/-- The renderer extraction inside `detect_gpu`: on a successful `glxinfo`
run, the first stdout line containing `OpenGL renderer`, lowercased; empty
otherwise (including on any exception). -/
def glRendererLine (gl : SpawnOutcome) : Str :=
  match gl with
  | .completed rc out _ =>
    if rc = 0 then
      match (splitLines out).find? (fun l => pyIn (str "OpenGL renderer") l) with
      | some line => lowerStr line
      | none => []
    else []
  | _ => []

/-- The vendor keyword chain of `detect_gpu`, as a function of the filtered
device lines (`gpu_lines`) and the renderer line (`gl_info`).  `gpu_info` is
`' '.join(gpu_lines).lower()`.  Returns the assigned `GPUVendor` together with
the string value `detect_gpu` returns from that branch.  Note the Intel branch
tests `gpu_info` only, not `gl_info`. -/
def classify_gpu (gpu_lines : List Str) (gl_info : Str) : GPUVendor × Str :=
  let gpu_info := lowerStr (joinSpace gpu_lines)
  if pyIn (str "vmware") gpu_info || pyIn (str "vmware") gl_info ||
     pyIn (str "virtualbox") gpu_info || pyIn (str "virtualbox") gl_info ||
     pyIn (str "qxl") gpu_info || pyIn (str "qxl") gl_info ||
     pyIn (str "virtio") gpu_info || pyIn (str "virtio") gl_info ||
     pyIn (str "svga3d") gpu_info || pyIn (str "svga3d") gl_info then
    (.VIRTUAL, str "generic")
  else if pyIn (str "nvidia") gpu_info || pyIn (str "nvidia") gl_info then
    (.NVIDIA, str "nvidia")
  else if pyIn (str "amd") gpu_info || pyIn (str "amd") gl_info ||
          pyIn (str "radeon") gpu_info || pyIn (str "radeon") gl_info ||
          pyIn (str "ati") gpu_info || pyIn (str "ati") gl_info then
    (.AMD, str "amd")
  else if pyIn (str "intel") gpu_info &&
          (pyIn (str "graphics") gpu_info || pyIn (str "hd") gpu_info ||
           pyIn (str "iris") gpu_info || pyIn (str "uhd") gpu_info ||
           pyIn (str "arc") gpu_info) then
    (.INTEL, str "intel")
  else if gpu_lines ≠ [] then
    (.UNKNOWN, str "generic")
  else
    (.UNKNOWN, str "unknown")

/-- Result of `GamingSetup.detect_gpu`: the `GPUVendor` written to
`hardware_info.gpu_vendor`, the `VMType` written to `hardware_info.vm_type`
(left at its `NONE` default when the VM branch is not taken), the string the
method returns, and whether the `lspci` device-enumeration command inside
`detect_gpu` was attempted. -/
structure GpuDetectOutcome where
  gpu_vendor : GPUVendor
  vm_type : VMType
  retVal : Str
  enumInvoked : Bool
deriving DecidableEq

/-- The hardware-scan branch of `detect_gpu` (reached only when
`detect_virtualization` was falsy): run `lspci` (any exception from the outer
`try` yields the `'unknown'` fallback), filter the lines, fetch the renderer
line, and classify. -/
def detect_gpu_hw (lspci gl : SpawnOutcome) : GpuDetectOutcome :=
  match lspci with
  | .completed _ out _ =>
    let lspci_output := lowerStr out
    let gpu_lines := gpuFilterLines lspci_output
    let gl_info := glRendererLine gl
    let (vendor, ret) := classify_gpu gpu_lines gl_info
    ⟨vendor, .NONE, ret, true⟩
  | _ => ⟨.UNKNOWN, .NONE, str "unknown", true⟩

/-- `GamingSetup.detect_gpu`: first run the `detect_virtualization` chain on
its three probe outcomes; a truthy (non-empty) result short-circuits to the
`VIRTUAL` vendor without touching the device-enumeration command, otherwise
the hardware scan runs on the `lspci`/`glxinfo` outcomes. -/
def detect_gpu (r1 r2 r3 lspci gl : SpawnOutcome) : GpuDetectOutcome :=
  match detect_virtualization r1 r2 r3 with
  | some vm_type =>
    if vm_type ≠ [] then
      ⟨.VIRTUAL, vm_type_str_to_enum vm_type, lowerStr vm_type, false⟩
    else detect_gpu_hw lspci gl
  | none => detect_gpu_hw lspci gl

/-- `GamingSetup.is_package_installed`: `dpkg -l` succeeded with exit 0 and its
stdout contains the substring `ii`; any exception yields `False`. -/
def is_package_installed (r : SpawnOutcome) : Bool :=
  match r with
  | .completed rc out _ => rc == 0 && pyIn (str "ii") out
  | _ => false

/-- `GamingSetup.get_package_version`: on exit 0 of `dpkg-query`, the stripped
stdout; otherwise (non-zero exit or any exception) `None`. -/
def get_package_version (r : SpawnOutcome) : Option Str :=
  match r with
  | .completed rc out _ => if rc = 0 then some (stripStr out) else none
  | _ => none

/-- The line scan inside `get_available_version`: the first line containing
`Candidate:` yields `line.split(':')[1].strip()`. -/
def findCandidate : List Str → Option Str
  | [] => none
  | l :: ls =>
    if pyIn (str "Candidate:") l then
      some (stripStr ((splitOnChar ':' l).getD 1 []))
    else findCandidate ls

/-- `GamingSetup.get_available_version`: on exit 0 of `apt-cache policy`, scan
the stdout lines for a `Candidate:` line; otherwise `None`. -/
def get_available_version (r : SpawnOutcome) : Option Str :=
  match r with
  | .completed rc out _ => if rc = 0 then findCandidate (splitLines out) else none
  | _ => none

/-- `GamingSetup.check_updates_available`, over the results of the two version
queries: `(update_available, installed_version, available_version)` with
Python truthiness on both version values and plain string inequality. -/
def check_updates_available (installed available : Option Str) :
    Bool × Option Str × Option Str :=
  if pyTruthy installed && pyTruthy available && installed != available then
    (true, installed, available)
  else
    (false, installed, available)

/-- The behavioural switches of `InstallationConfig` used by the decision
path (`auto_yes` from `-y`, `dry_run` from `--dry-run`). -/
structure Config where
  auto_yes : Bool
  dry_run : Bool
deriving DecidableEq

/-- `GamingSetup.confirm`, over a finite list of typed responses.  Returns the
boolean answer and whether the blocking `input()` read was ever invoked.
Auto-yes and dry-run answer `True` before any read; otherwise the loop
consumes responses until one lowercases to `y`/`yes`/`n`/`no`, and exhausting
the responses models `EOFError`/`KeyboardInterrupt`, answered `False`. -/
def confirm (cfg : Config) (responses : List Str) : Bool × Bool :=
  if cfg.auto_yes then (true, false)
  else if cfg.dry_run then (true, false)
  else go responses
where
  go : List Str → Bool × Bool
    | [] => (false, true)
    | r :: rs =>
      let response := lowerStr r
      if response = str "y" ∨ response = str "yes" then (true, true)
      else if response = str "n" ∨ response = str "no" then (false, true)
      else go rs

/-- The three external queries `prompt_install_or_update` can make for an APT
package name: `dpkg -l`, `dpkg-query -W`, `apt-cache policy`. -/
structure PkgQueries where
  qInstalled : SpawnOutcome
  qVersion : SpawnOutcome
  qAvailable : SpawnOutcome

/-- The two external queries for a Flatpak id: `flatpak list --app`,
`flatpak info`. -/
structure FlatpakQueries where
  qList : SpawnOutcome
  qInfo : SpawnOutcome

/-- `GamingSetup.is_flatpak_installed`: membership of the app id in the
`flatpak list --app` stdout; any exception yields `False`.  The membership
test is Python `app_id in result.stdout`. -/
def is_flatpak_installed (app_id : Str) (r : SpawnOutcome) : Bool :=
  match r with
  | .completed _ out _ => pyIn app_id out
  | _ => false

/-- The line scan inside `get_flatpak_version`: first line containing
`Version:`, split on `:`, field 1, stripped. -/
def findVersionLine : List Str → Option Str
  | [] => none
  | l :: ls =>
    if pyIn (str "Version:") l then
      some (stripStr ((splitOnChar ':' l).getD 1 []))
    else findVersionLine ls

/-- `GamingSetup.get_flatpak_version`. -/
def get_flatpak_version (r : SpawnOutcome) : Option Str :=
  match r with
  | .completed rc out _ =>
    if rc = 0 then findVersionLine (splitLines out) else none
  | _ => none

/-- `GamingSetup.prompt_install_or_update`, over the optional backend queries
and the interactive responses.  Returns the boolean decision and whether the
blocking `input()` read was invoked.  Auto-yes returns `True` before any
status check; otherwise the APT state is computed (with
`update_available = current_version != available_version`), the Flatpak
backend is consulted only when APT reported not-installed, and exactly one
`confirm` call is made, chosen by the resulting state. -/
def prompt_install_or_update (cfg : Config) (pkg : Option PkgQueries)
    (flatpak : Option (Str × FlatpakQueries)) (responses : List Str) :
    Bool × Bool :=
  if cfg.auto_yes then (true, false)
  else
    let aptState : Bool × Option Str × Option Str × Bool :=
      match pkg with
      | some q =>
        if is_package_installed q.qInstalled then
          let cv := get_package_version q.qVersion
          let av := get_available_version q.qAvailable
          (true, cv, av, cv != av)
        else (false, none, none, false)
      | none => (false, none, none, false)
    let (is_installed₀, current₀, available, update_available) := aptState
    let (is_installed, _current) :=
      match flatpak with
      | some (app_id, q) =>
        if !is_installed₀ && is_flatpak_installed app_id q.qList then
          (true, get_flatpak_version q.qInfo)
        else (is_installed₀, current₀)
      | none => (is_installed₀, current₀)
    if is_installed then
      if update_available && pyTruthy available then
        confirm cfg responses
      else
        confirm cfg responses
    else
      confirm cfg responses

section StringLemmas

/-- `pyIn` answers exactly contiguous-substring membership. -/
lemma pyIn_iff {needle hay : Str} : pyIn needle hay = true ↔ needle <:+: hay := by
  simp [pyIn]

lemma dropWhile_all_false {p : Char → Bool} {s : Str}
    (h : ∀ c ∈ s, p c = false) : s.dropWhile p = s := by
  cases s with
  | nil => rfl
  | cons c cs => simp [List.dropWhile, h c (List.mem_cons_self c cs)]

/-- Stripping a string with no whitespace-class characters is the identity. -/
lemma stripStr_eq_self {s : Str} (h : ∀ c ∈ s, pyWS c = false) :
    stripStr s = s := by
  unfold stripStr
  rw [dropWhile_all_false h, dropWhile_all_false, List.reverse_reverse]
  intro c hc
  exact h c (List.mem_reverse.mp hc)

/-- Stripping drops a leading whitespace character. -/
lemma stripStr_ws_cons {w : Char} {s : Str} (hw : pyWS w = true) :
    stripStr (w :: s) = stripStr s := by
  unfold stripStr
  simp [List.dropWhile, hw]

lemma splitOnChar_of_not_mem {sep : Char} {a : Str} (h : sep ∉ a) :
    splitOnChar sep a = [a] := by
  induction a with
  | nil => rfl
  | cons c cs ih =>
    have hc : ¬ c = sep := fun e => h (e ▸ List.mem_cons_self c cs)
    have h' : sep ∉ cs := fun m => h (List.mem_cons_of_mem _ m)
    simp [splitOnChar, hc, ih h']

lemma splitOnChar_sep_cons {sep : Char} {a b : Str} (h : sep ∉ a) :
    splitOnChar sep (a ++ sep :: b) = a :: splitOnChar sep b := by
  induction a with
  | nil => simp [splitOnChar]
  | cons c cs ih =>
    have hc : ¬ c = sep := fun e => h (e ▸ List.mem_cons_self c cs)
    have h' : sep ∉ cs := fun m => h (List.mem_cons_of_mem _ m)
    have ihr := ih h'
    show splitOnChar sep (c :: (cs ++ sep :: b)) = _
    simp only [splitOnChar, hc, if_false]
    rw [ihr]

/-- Splitting inverts joining when no line contains the separator. -/
lemma splitLines_joinWith {ls : List Str} (hne : ls ≠ [])
    (h : ∀ l ∈ ls, ('\n') ∉ l) :
    splitLines (joinWith (str "\n") ls) = ls := by
  induction ls with
  | nil => exact absurd rfl hne
  | cons l rest ih =>
    cases rest with
    | nil =>
      show splitOnChar '\n' (joinWith (str "\n") [l]) = [l]
      rw [show joinWith (str "\n") [l] = l from rfl]
      exact splitOnChar_of_not_mem (h l (List.mem_cons_self l []))
    | cons m ms =>
      have hstep :
          joinWith (str "\n") (l :: m :: ms)
            = l ++ '\n' :: joinWith (str "\n") (m :: ms) := by
        show l ++ str "\n" ++ joinWith (str "\n") (m :: ms) = _
        simp [str]
      show splitOnChar '\n' (joinWith (str "\n") (l :: m :: ms)) = _
      rw [hstep, splitOnChar_sep_cons (h l (List.mem_cons_self l _))]
      have := ih (by simp) (fun x hx => h x (List.mem_cons_of_mem _ hx))
      rw [show splitOnChar '\n' (joinWith (str "\n") (m :: ms)) = m :: ms from this]

/-- `findCandidate` skips any leading lines without the `Candidate:` marker. -/
lemma findCandidate_append {pre rest : List Str}
    (h : ∀ l ∈ pre, pyIn (str "Candidate:") l = false) :
    findCandidate (pre ++ rest) = findCandidate rest := by
  induction pre with
  | nil => rfl
  | cons l ls ih =>
    have hl := h l (List.mem_cons_self l ls)
    simp only [List.cons_append, findCandidate, hl, Bool.false_eq_true, if_false]
    exact ih (fun x hx => h x (List.mem_cons_of_mem _ hx))

end StringLemmas

section VirtLemmas

lemma virtMapLookup_ne_nil {k v : Str} (h : virtMapLookup k = some v) :
    v ≠ [] := by
  unfold virtMapLookup at h
  split_ifs at h <;> simp only [Option.some.injEq] at h <;> (subst h; decide)

lemma virtProbe1_ne_nil {r : SpawnOutcome} {v : Str}
    (h : virtProbe1 r = some v) : v ≠ [] := by
  cases r with
  | completed rc out err =>
    unfold virtProbe1 at h
    simp only at h
    split_ifs at h with hcond
    · simp only [Option.some.injEq] at h
      subst h
      cases hl : virtMapLookup (lowerStr (stripStr out)) with
      | none => simpa [hl] using hcond.1
      | some w => simpa [hl] using virtMapLookup_ne_nil hl
  | timedOut => cases h
  | launchError m => cases h

lemma virtProbe2_ne_nil {r : SpawnOutcome} {v : Str}
    (h : virtProbe2 r = some v) : v ≠ [] := by
  cases r with
  | completed rc out err =>
    unfold virtProbe2 at h
    simp only at h
    split_ifs at h <;> simp only [Option.some.injEq] at h <;> (subst h; decide)
  | timedOut => cases h
  | launchError m => cases h

lemma virtProbe3_ne_nil {r : SpawnOutcome} {v : Str}
    (h : virtProbe3 r = some v) : v ≠ [] := by
  cases r with
  | completed rc out err =>
    unfold virtProbe3 at h
    simp only at h
    split_ifs at h <;> simp only [Option.some.injEq] at h <;> (subst h; decide)
  | timedOut => cases h
  | launchError m => cases h

/-- Every definite answer of the probe chain is a non-empty (Python-truthy)
string, so `if vm_type:` in `detect_gpu` is equivalent to `vm_type is not
None`. -/
lemma detect_virtualization_ne_nil {r1 r2 r3 : SpawnOutcome} {s : Str}
    (h : detect_virtualization r1 r2 r3 = some s) : s ≠ [] := by
  unfold detect_virtualization detect_virtualizationT at h
  cases h1 : virtProbe1 r1 with
  | some v =>
    rw [h1] at h
    simp only [Option.some.injEq] at h
    exact h ▸ virtProbe1_ne_nil h1
  | none =>
    rw [h1] at h
    cases h2 : virtProbe2 r2 with
    | some v =>
      rw [h2] at h
      simp only [Option.some.injEq] at h
      exact h ▸ virtProbe2_ne_nil h2
    | none =>
      rw [h2] at h
      cases h3 : virtProbe3 r3 with
      | some v =>
        rw [h3] at h
        simp only [Option.some.injEq] at h
        exact h ▸ virtProbe3_ne_nil h3
      | none => rw [h3] at h; cases h

end VirtLemmas

set_option maxRecDepth 40000

/-- C1: the virtualization probe chain evaluates its three probes strictly in
order (oracle, kernel-message scan, device-enumeration scan); a definitive
answer from an earlier probe short-circuits, so later probes are not invoked
(the invocation count stops at that probe); and when every probe is
inconclusive (failed to launch, timed out, or produced an empty/`none`/
markerless answer) the overall result is `None` . -/
theorem virt_chain_short_circuit (r1 r2 r3 : SpawnOutcome) :
    (∀ v, virtProbe1 r1 = some v →
      detect_virtualizationT r1 r2 r3 = (some v, 1))
  ∧ (virtProbe1 r1 = none → ∀ v, virtProbe2 r2 = some v →
      detect_virtualizationT r1 r2 r3 = (some v, 2))
  ∧ (virtProbe1 r1 = none → virtProbe2 r2 = none → ∀ v, virtProbe3 r3 = some v →
      detect_virtualizationT r1 r2 r3 = (some v, 3))
  ∧ (virtProbe1 r1 = none → virtProbe2 r2 = none → virtProbe3 r3 = none →
      detect_virtualizationT r1 r2 r3 = (none, 3)) := by
  refine ⟨fun v h1 => ?_, fun h1 v h2 => ?_, fun h1 h2 v h3 => ?_,
    fun h1 h2 h3 => ?_⟩ <;>
    simp [detect_virtualizationT, *]

/-- Witness for `virt_chain_short_circuit`: each of the four cases at a
concrete probe configuration. -/
theorem virt_chain_short_circuit_witness :
    detect_virtualizationT (.completed 0 (str "kvm\n") []) .timedOut .timedOut
      = (some (str "KVM"), 1)
  ∧ detect_virtualizationT .timedOut
      (.completed 0 (str "[0.1] Hypervisor detected: VMware") []) .timedOut
      = (some (str "VMware"), 2)
  ∧ detect_virtualizationT .timedOut (.completed 0 (str "nothing here") [])
      (.completed 0 (str "00:02.0 vga: qxl paravirtual card") [])
      = (some (str "KVM/QEMU"), 3)
  ∧ detect_virtualizationT .timedOut .timedOut .timedOut = (none, 3) := by
  refine ⟨(virt_chain_short_circuit _ _ _).1 _ (by decide),
    (virt_chain_short_circuit _ _ _).2.1 (by decide) _ (by decide),
    (virt_chain_short_circuit _ _ _).2.2.1 (by decide) (by decide) _ (by decide),
    (virt_chain_short_circuit _ _ _).2.2.2 (by decide) (by decide) (by decide)⟩

/-- C3: whenever `detect_virtualization` returns a (non-`None`) result,
`detect_gpu` stores the `VIRTUAL` vendor, returns the lowercased VM string,
and never attempts the `lspci` device enumeration, whatever that enumeration
or `glxinfo` would have returned. -/
theorem vm_short_circuits_gpu (r1 r2 r3 lspci gl : SpawnOutcome) (s : Str)
    (h : detect_virtualization r1 r2 r3 = some s) :
    detect_gpu r1 r2 r3 lspci gl
      = ⟨GPUVendor.VIRTUAL, vm_type_str_to_enum s, lowerStr s, false⟩ := by
  have hs : s ≠ [] := detect_virtualization_ne_nil h
  simp [detect_gpu, h, hs]

/-- Witness for `vm_short_circuits_gpu`: an oracle answer of `kvm` wins even
though the device enumeration would have reported an NVIDIA card. -/
theorem vm_short_circuits_gpu_witness :
    detect_gpu (.completed 0 (str "kvm") []) .timedOut .timedOut
      (.completed 0 (str "01:00.0 VGA compatible controller: NVIDIA GP106") [])
      (.completed 0 (str "OpenGL renderer string: NVIDIA GeForce") [])
      = ⟨GPUVendor.VIRTUAL, VMType.KVM, str "kvm", false⟩ := by
  have h := vm_short_circuits_gpu (.completed 0 (str "kvm") []) .timedOut
    .timedOut
    (.completed 0 (str "01:00.0 VGA compatible controller: NVIDIA GP106") [])
    (.completed 0 (str "OpenGL renderer string: NVIDIA GeForce") [])
    (str "KVM") (by decide)
  rw [h]
  decide

/-- C5: under `dry_run` the executor spawns no process, returns `Success`
(`True`) with empty stdout and stderr, and leaves the failure ledger
untouched, for every command, `check` flag, timeout and would-be outcome. -/
theorem dry_run_no_side_effects (check : Bool) (description : Str)
    (timeout : Nat) (spawn : SpawnOutcome) (ledger : List Str) :
    run_command true check description timeout spawn ledger
      = (⟨true, [], []⟩, ledger, false) := by
  simp [run_command]

/-- Counterexample to C4 as stated: a non-zero exit under `check=False` (used
by many call sites, e.g. the fonts-EULA step) is a non-`Success` outcome that
appends nothing to the failure ledger. -/
theorem run_command_ledger_cex :
    (run_command false false (str "step") 300 (.completed 1 [] []) []).1.success
      = false
  ∧ (run_command false false (str "step") 300 (.completed 1 [] []) []).2.1
      = [] := by
  constructor <;> rfl

/-- C4 (amended): outside dry-run, `run_command` reports success exactly on
exit code 0; the ledger only ever grows, and it gains exactly one entry on a
timeout, on a launch error, and on a non-zero exit under `check=True`, while a
non-zero exit under `check=False` (and every success) leaves it unchanged. -/
theorem run_command_ledger (check : Bool) (description : Str) (timeout : Nat)
    (spawn : SpawnOutcome) (ledger : List Str) :
    (run_command false check description timeout spawn ledger).1.success
      = spawnSuccess spawn
  ∧ (run_command false check description timeout spawn ledger).2.1.length
      = ledger.length + (if ledgerAppends check spawn then 1 else 0)
  ∧ ledger <+: (run_command false check description timeout spawn ledger).2.1
    := by
  cases spawn with
  | completed rc out err =>
    by_cases hrc : rc = 0 <;> cases check <;>
      simp [run_command, spawnSuccess, ledgerAppends, hrc]
  | timedOut => simp [run_command, spawnSuccess, ledgerAppends]
  | launchError m => simp [run_command, spawnSuccess, ledgerAppends]

/-- C6: update detection is plain string inequality gated on both versions
being present (truthy): with both versions present the update flag is set iff
the two strings differ, and with either version absent it is `false`. -/
theorem update_string_inequality (installed available : Option Str) :
    (pyTruthy installed = true → pyTruthy available = true →
      ((check_updates_available installed available).1 = true
        ↔ installed ≠ available))
  ∧ (installed = none ∨ available = none →
      (check_updates_available installed available).1 = false) := by
  constructor
  · intro hi ha
    unfold check_updates_available
    by_cases h : installed = available <;> simp [hi, ha, h]
  · rintro (rfl | rfl) <;> simp [check_updates_available, pyTruthy]

/-- Witness for `update_string_inequality`: the spec's three version pairs
(equal, point upgrade, "downgrade") and one absent version. -/
theorem update_string_inequality_witness :
    (check_updates_available (some (str "1.0")) (some (str "1.0"))).1 = false
  ∧ (check_updates_available (some (str "1.0")) (some (str "1.0.1"))).1 = true
  ∧ (check_updates_available (some (str "2.0")) (some (str "1.9"))).1 = true
  ∧ (check_updates_available none (some (str "1.0"))).1 = false := by
  refine ⟨?_, ?_, ?_, ?_⟩
  · have h := (update_string_inequality (some (str "1.0")) (some (str "1.0"))).1
      (by decide) (by decide)
    have : ¬ ((check_updates_available (some (str "1.0"))
        (some (str "1.0"))).1 = true) := fun hx => (h.mp hx) rfl
    exact Bool.eq_false_iff.mpr this
  · exact ((update_string_inequality (some (str "1.0"))
      (some (str "1.0.1"))).1 (by decide) (by decide)).mpr (by decide)
  · exact ((update_string_inequality (some (str "2.0"))
      (some (str "1.9"))).1 (by decide) (by decide)).mpr (by decide)
  · exact (update_string_inequality none (some (str "1.0"))).2 (Or.inl rfl)

/-- C9: with `auto_yes` set, the smart prompt decides to install before any
package-state probing and without ever reaching the blocking `input()` read,
whatever the package state (including installed with no update) and whatever
responses would be typed. -/
theorem auto_yes_dominance (cfg : Config) (pkg : Option PkgQueries)
    (flatpak : Option (Str × FlatpakQueries)) (responses : List Str)
    (h : cfg.auto_yes = true) :
    prompt_install_or_update cfg pkg flatpak responses = (true, false) := by
  simp [prompt_install_or_update, h]

/-- Witness for `auto_yes_dominance`: an APT package that is installed
(`ii` status) at version `1.0` with candidate `1.0` (no update available),
and a user who would have answered `no`. -/
theorem auto_yes_dominance_witness :
    prompt_install_or_update ⟨true, false⟩
      (some ⟨.completed 0 (str "ii  steam  1.0  amd64") [],
             .completed 0 (str "1.0") [],
             .completed 0 (str "steam:\n  Candidate: 1.0") []⟩)
      none [str "n"] = (true, false) :=
  auto_yes_dominance _ _ _ _ rfl

/-- No virtual-GPU marker of `detect_gpu`'s first check occurs in the text. -/
def noVmMarkers (t : Str) : Bool :=
  !(pyIn (str "vmware") t || pyIn (str "virtualbox") t || pyIn (str "qxl") t ||
    pyIn (str "virtio") t || pyIn (str "svga3d") t)

/-- Some AMD marker (`amd`, `radeon`, `ati`) occurs in the text. -/
def amdMarker (t : Str) : Bool :=
  pyIn (str "amd") t || pyIn (str "radeon") t || pyIn (str "ati") t

/-- Some Intel graphics-quality qualifier occurs in the text. -/
def intelQualifier (t : Str) : Bool :=
  pyIn (str "graphics") t || pyIn (str "hd") t || pyIn (str "iris") t ||
    pyIn (str "uhd") t || pyIn (str "arc") t

/-- Counterexample to C2 as stated: a filtered device line carrying an AMD
marker and an Intel marker together with an NVIDIA marker classifies as
NVIDIA, not AMD — the "in particular" clause fails without an additional
no-higher-precedence-marker premise. -/
theorem amd_precedes_intel_cex :
    pyIn (str "vga") (str "00:02.0 vga controller: nvidia amd intel graphics")
      = true
  ∧ amdMarker (lowerStr (joinSpace
      [str "00:02.0 vga controller: nvidia amd intel graphics"])) = true
  ∧ pyIn (str "intel") (lowerStr (joinSpace
      [str "00:02.0 vga controller: nvidia amd intel graphics"])) = true
  ∧ (classify_gpu [str "00:02.0 vga controller: nvidia amd intel graphics"]
      []).1 = GPUVendor.NVIDIA
  ∧ (classify_gpu [str "00:02.0 vga controller: nvidia amd intel graphics"]
      []).1 ≠ GPUVendor.AMD := by
  refine ⟨by decide, by decide, by decide, by decide, by decide⟩

/-- C2 (amended): the classifier is a pure function of the filtered lines and
the renderer string, with precedence `Virtual > Nvidia > AMD > Intel >
UnknownGeneric > UnknownNone`; for every input whose filtered lines carry both
an AMD marker and an Intel marker, and that carries no virtualization and no
NVIDIA marker (in lines or renderer), the classification is AMD. -/
theorem amd_precedes_intel (lines : List Str) (gl : Str)
    (hv1 : noVmMarkers (lowerStr (joinSpace lines)) = true)
    (hv2 : noVmMarkers gl = true)
    (hn1 : pyIn (str "nvidia") (lowerStr (joinSpace lines)) = false)
    (hn2 : pyIn (str "nvidia") gl = false)
    (ha : amdMarker (lowerStr (joinSpace lines)) = true)
    (hi : pyIn (str "intel") (lowerStr (joinSpace lines)) = true) :
    (classify_gpu lines gl).1 = GPUVendor.AMD := by
  simp only [noVmMarkers, Bool.not_eq_true', Bool.or_eq_false_iff] at hv1 hv2
  obtain ⟨⟨⟨⟨hv11, hv12⟩, hv13⟩, hv14⟩, hv15⟩ := hv1
  obtain ⟨⟨⟨⟨hv21, hv22⟩, hv23⟩, hv24⟩, hv25⟩ := hv2
  simp only [amdMarker, Bool.or_eq_true] at ha
  rcases ha with (ha | ha) | ha <;>
    simp [classify_gpu, hv11, hv12, hv13, hv14, hv15, hv21, hv22, hv23, hv24,
      hv25, hn1, hn2, ha]

/-- Witness for `amd_precedes_intel`: an AMD device line that also mentions
Intel classifies as AMD. -/
theorem amd_precedes_intel_witness :
    (classify_gpu [str "03:00.0 vga controller: amd radeon rx 580 intel rival"]
      []).1 = GPUVendor.AMD :=
  amd_precedes_intel _ _ (by decide) (by decide) (by decide) (by decide)
    (by decide) (by decide)

/-- Counterexample to C8 as stated: with no virtualization, NVIDIA or AMD
marker anywhere, a renderer string carrying `intel` plus qualifiers while the
filtered lines carry neither does NOT classify as Intel (the code tests the
Intel marker against the filtered lines only), although the combined text
satisfies the claim's condition. -/
theorem intel_combined_text_cex :
    pyIn (str "intel")
      (lowerStr (joinSpace [str "00:02.0 vga controller: acme video device"])
        ++ str " " ++ str "opengl renderer string: intel hd graphics 620")
      = true
  ∧ intelQualifier
      (lowerStr (joinSpace [str "00:02.0 vga controller: acme video device"])
        ++ str " " ++ str "opengl renderer string: intel hd graphics 620")
      = true
  ∧ noVmMarkers
      (lowerStr (joinSpace [str "00:02.0 vga controller: acme video device"])
        ++ str " " ++ str "opengl renderer string: intel hd graphics 620")
      = true
  ∧ pyIn (str "nvidia")
      (lowerStr (joinSpace [str "00:02.0 vga controller: acme video device"])
        ++ str " " ++ str "opengl renderer string: intel hd graphics 620")
      = false
  ∧ amdMarker
      (lowerStr (joinSpace [str "00:02.0 vga controller: acme video device"])
        ++ str " " ++ str "opengl renderer string: intel hd graphics 620")
      = false
  ∧ (classify_gpu [str "00:02.0 vga controller: acme video device"]
      (str "opengl renderer string: intel hd graphics 620")).1
      = GPUVendor.UNKNOWN
  ∧ (classify_gpu [str "00:02.0 vga controller: acme video device"]
      (str "opengl renderer string: intel hd graphics 620")).1
      ≠ GPUVendor.INTEL := by
  refine ⟨by decide, by decide, by decide, by decide, by decide, by decide,
    by decide⟩

/-- C8 (amended): with no virtualization, NVIDIA or AMD marker in the filtered
lines or the renderer string, the classification is Intel exactly when the
filtered lines' text alone (the renderer string is not consulted for this
check) contains `intel` together with at least one of the qualifiers
`graphics`, `hd`, `iris`, `uhd`, `arc`. -/
theorem intel_match_lspci_only (lines : List Str) (gl : Str)
    (hv1 : noVmMarkers (lowerStr (joinSpace lines)) = true)
    (hv2 : noVmMarkers gl = true)
    (hn1 : pyIn (str "nvidia") (lowerStr (joinSpace lines)) = false)
    (hn2 : pyIn (str "nvidia") gl = false)
    (ha1 : amdMarker (lowerStr (joinSpace lines)) = false)
    (ha2 : amdMarker gl = false) :
    (classify_gpu lines gl).1 = GPUVendor.INTEL
      ↔ (pyIn (str "intel") (lowerStr (joinSpace lines))
          && intelQualifier (lowerStr (joinSpace lines))) = true := by
  simp only [noVmMarkers, Bool.not_eq_true', Bool.or_eq_false_iff] at hv1 hv2
  obtain ⟨⟨⟨⟨hv11, hv12⟩, hv13⟩, hv14⟩, hv15⟩ := hv1
  obtain ⟨⟨⟨⟨hv21, hv22⟩, hv23⟩, hv24⟩, hv25⟩ := hv2
  simp only [amdMarker, Bool.or_eq_false_iff] at ha1 ha2
  obtain ⟨⟨ha11, ha12⟩, ha13⟩ := ha1
  obtain ⟨⟨ha21, ha22⟩, ha23⟩ := ha2
  have key : classify_gpu lines gl
      = if (pyIn (str "intel") (lowerStr (joinSpace lines))
            && intelQualifier (lowerStr (joinSpace lines))) = true
        then (GPUVendor.INTEL, str "intel")
        else if lines ≠ [] then (GPUVendor.UNKNOWN, str "generic")
        else (GPUVendor.UNKNOWN, str "unknown") := by
    simp [classify_gpu, intelQualifier, hv11, hv12, hv13, hv14, hv15, hv21,
      hv22, hv23, hv24, hv25, hn1, hn2, ha11, ha12, ha13, ha21, ha22, ha23]
  rw [key]
  by_cases hcond : (pyIn (str "intel") (lowerStr (joinSpace lines))
      && intelQualifier (lowerStr (joinSpace lines))) = true
  · simp [hcond]
  · have hcf := Bool.eq_false_iff.mpr hcond
    simp only [hcf, Bool.false_eq_true, if_false, iff_false]
    split <;> simp

/-- Witness for `intel_match_lspci_only`: an Intel UHD device line classifies
as Intel, while an Intel device line with no graphics-quality qualifier does
not. -/
theorem intel_match_lspci_only_witness :
    (classify_gpu [str "00:02.0 vga controller: intel uhd graphics 620"]
      []).1 = GPUVendor.INTEL
  ∧ (classify_gpu [str "00:02.0 3d controller: intel accelerator"]
      []).1 ≠ GPUVendor.INTEL :=
  ⟨(intel_match_lspci_only _ _ (by decide) (by decide) (by decide) (by decide)
      (by decide) (by decide)).mpr (by decide),
   fun h => absurd ((intel_match_lspci_only _ _ (by decide) (by decide)
      (by decide) (by decide) (by decide) (by decide)).mp h) (by decide)⟩

/-- Counterexample to C7 as stated: the raw token `bhyve` is kept as the
string result of `detect_virtualization`, but the stored classification enum
(`VMType`, which has no `Other` variant) collapses it to `NONE`, both through
`_vm_type_str_to_enum` and in the `vm_type` field recorded by `detect_gpu`. -/
theorem other_token_collapses_cex :
    detect_virtualization (.completed 0 (str "bhyve") []) .timedOut .timedOut
      = some (str "bhyve")
  ∧ vm_type_str_to_enum (str "bhyve") = VMType.NONE
  ∧ (detect_gpu (.completed 0 (str "bhyve") []) .timedOut .timedOut
      .timedOut .timedOut).vm_type = VMType.NONE := by
  refine ⟨by decide, by decide, by decide⟩

/-- C7 (amended): a non-empty raw oracle token outside the lookup table
(which maps vmware, kvm, qemu, virtualbox, oracle, microsoft, xen, bochs and
parallels, with empty/`none` inconclusive) is kept verbatim as the string
result of `detect_virtualization`; the `VMType` enum however has no `Other`
variant, and `_vm_type_str_to_enum` collapses any token without a recognized
substring to `NONE`. -/
theorem other_token_kept_as_string (t : Str) (rc : Int) (err : Str)
    (r2 r3 : SpawnOutcome)
    (hstrip : stripStr t = t) (hne : t ≠ []) (hnone : t ≠ str "none")
    (hmap : virtMapLookup (lowerStr t) = none)
    (h1 : pyIn (str "vmware") (lowerStr t) = false)
    (h2 : pyIn (str "virtualbox") (lowerStr t) = false)
    (h3 : pyIn (str "oracle") (lowerStr t) = false)
    (h4 : pyIn (str "kvm") (lowerStr t) = false)
    (h5 : pyIn (str "qemu") (lowerStr t) = false)
    (h6 : pyIn (str "hyper-v") (lowerStr t) = false)
    (h7 : pyIn (str "microsoft") (lowerStr t) = false)
    (h8 : pyIn (str "xen") (lowerStr t) = false)
    (h9 : pyIn (str "parallels") (lowerStr t) = false) :
    detect_virtualization (.completed rc t err) r2 r3 = some t
  ∧ vm_type_str_to_enum t = VMType.NONE := by
  constructor
  · simp [detect_virtualization, detect_virtualizationT, virtProbe1, hstrip,
      hne, hnone, hmap]
  · simp [vm_type_str_to_enum, h1, h2, h3, h4, h5, h6, h7, h8, h9]

/-- Witness for `other_token_kept_as_string`: the oracle token `acrn`. -/
theorem other_token_kept_as_string_witness :
    detect_virtualization (.completed 0 (str "acrn") []) .timedOut .timedOut
      = some (str "acrn")
  ∧ vm_type_str_to_enum (str "acrn") = VMType.NONE :=
  other_token_kept_as_string (str "acrn") 0 [] .timedOut .timedOut
    (by decide) (by decide) (by decide) (by decide) (by decide) (by decide)
    (by decide) (by decide) (by decide) (by decide) (by decide) (by decide)
    (by decide)

/-- C10: `get_available_version` keeps only the field between the first and
second colon of the `Candidate:` line, so a candidate version with a Debian
epoch (`a:b` with a colon) is truncated to the epoch prefix `a`, while
`get_package_version` returns the full string; a package installed at exactly
that candidate version is therefore always reported as having an update
available. -/
theorem epoch_candidate_truncation (pre : List Str) (a b : Str)
    (hpreNl : ∀ l ∈ pre, ('\n') ∉ l)
    (hpreCand : ∀ l ∈ pre, pyIn (str "Candidate:") l = false)
    (ha : a ≠ [])
    (haW : ∀ c ∈ a, pyWS c = false)
    (haC : (':') ∉ a)
    (hbW : ∀ c ∈ b, pyWS c = false) :
    get_available_version (.completed 0
        (joinWith (str "\n") (pre ++ [str "Candidate: " ++ (a ++ ':' :: b)]))
        []) = some a
  ∧ get_package_version (.completed 0 (a ++ ':' :: b) [])
      = some (a ++ ':' :: b)
  ∧ (check_updates_available (some (a ++ ':' :: b)) (some a)).1 = true := by
  have hwsNl : pyWS '\n' = true := by decide
  have hnlA : ('\n') ∉ a := fun hm => by simpa [pyWS] using haW _ hm
  have hnlB : ('\n') ∉ b := fun hm => by simpa [pyWS] using hbW _ hm
  have hnlCand : ('\n') ∉ (str "Candidate: " ++ (a ++ ':' :: b)) := by
    intro hm
    rcases List.mem_append.mp hm with hm | hm
    · revert hm; decide
    · rcases List.mem_append.mp hm with hm | hm
      · exact hnlA hm
      · rcases List.mem_cons.mp hm with hm | hm
        · cases hm
        · exact hnlB hm
  have hsplitJoin :
      splitLines (joinWith (str "\n")
          (pre ++ [str "Candidate: " ++ (a ++ ':' :: b)]))
        = pre ++ [str "Candidate: " ++ (a ++ ':' :: b)] := by
    apply splitLines_joinWith (by simp)
    intro l hl
    rcases List.mem_append.mp hl with hl | hl
    · exact hpreNl l hl
    · rcases List.mem_cons.mp hl with rfl | hl
      · exact hnlCand
      · cases hl
  have hshape : str "Candidate: " ++ (a ++ ':' :: b)
      = str "Candidate" ++ ':' :: ((' ' :: a) ++ ':' :: b) := by
    rfl
  have hinf : str "Candidate:" <:+: (str "Candidate: " ++ (a ++ ':' :: b)) :=
    ⟨[], ' ' :: (a ++ ':' :: b), by
      rw [List.nil_append,
        show str "Candidate: " = str "Candidate:" ++ [' '] from rfl,
        List.append_assoc]
      rfl⟩
  have hcand : pyIn (str "Candidate:")
      (str "Candidate: " ++ (a ++ ':' :: b)) = true :=
    decide_eq_true hinf
  have hsplitColon :
      splitOnChar ':' (str "Candidate: " ++ (a ++ ':' :: b))
        = str "Candidate" :: (' ' :: a) :: splitOnChar ':' b := by
    rw [hshape, splitOnChar_sep_cons (by decide),
      splitOnChar_sep_cons]
    intro hm
    rcases List.mem_cons.mp hm with hm | hm
    · cases hm
    · exact haC hm
  have hstripA : stripStr (' ' :: a) = a := by
    rw [stripStr_ws_cons (by decide)]
    exact stripStr_eq_self haW
  refine ⟨?_, ?_, ?_⟩
  · show (if (0 : Int) = 0 then
        findCandidate (splitLines (joinWith (str "\n")
          (pre ++ [str "Candidate: " ++ (a ++ ':' :: b)]))) else none) = some a
    rw [if_pos rfl, hsplitJoin, findCandidate_append hpreCand]
    show (if pyIn (str "Candidate:")
        (str "Candidate: " ++ (a ++ ':' :: b)) = true then
      some (stripStr ((splitOnChar ':'
        (str "Candidate: " ++ (a ++ ':' :: b))).getD 1 []))
      else findCandidate []) = some a
    rw [if_pos hcand, hsplitColon]
    show some (stripStr (' ' :: a)) = some a
    rw [hstripA]
  · show (if (0 : Int) = 0 then some (stripStr (a ++ ':' :: b)) else none)
      = some (a ++ ':' :: b)
    rw [if_pos rfl, stripStr_eq_self]
    intro c hc
    rcases List.mem_append.mp hc with hc | hc
    · exact haW _ hc
    · rcases List.mem_cons.mp hc with rfl | hc
      · decide
      · exact hbW _ hc
  · have hne2 : a ++ ':' :: b ≠ a := by
      intro h
      have := congrArg List.length h
      simp [List.length_append] at this
    simp [check_updates_available, pyTruthy, ha, hne2]

/-- Witness for `epoch_candidate_truncation`: an `apt-cache policy` output for
a package whose candidate is `1:2.3-1` and which is installed at `1:2.3-1`;
the parsed available version is just `1` and an update is reported. -/
theorem epoch_candidate_truncation_witness :
    get_available_version (.completed 0
        (joinWith (str "\n") ([str "steam:", str "  Installed: 1:2.3-1"]
          ++ [str "Candidate: " ++ (str "1" ++ ':' :: str "2.3-1")])) [])
      = some (str "1")
  ∧ get_package_version (.completed 0 (str "1" ++ ':' :: str "2.3-1") [])
      = some (str "1" ++ ':' :: str "2.3-1")
  ∧ (check_updates_available (some (str "1" ++ ':' :: str "2.3-1"))
      (some (str "1"))).1 = true :=
  epoch_candidate_truncation [str "steam:", str "  Installed: 1:2.3-1"]
    (str "1") (str "2.3-1") (by decide) (by decide) (by decide) (by decide)
    (by decide) (by decide)
